import Mathlib

/-!
Verification of the Crossref DOI provider
(`src/invenio_pidstore/providers/crossref.py`).

The provider is an adapter between a local persistent-identifier record
(`PersistentIdentifier` from `invenio_pidstore.models`, outside `src/`)
and a remote Crossref client (`CrossrefXMLClient` from `commonmeta`,
external).  We embed the adapter shallowly:

* `PIDStatus` and the local record `PID`, with the local lifecycle
  methods the adapter calls (`register`, `delete`, `is_new`,
  `is_deleted`, `sync_status`) modelled from the spec, since
  `models.py` / `providers/base.py` are not part of the source tree;
* the remote client as a function `Api : RemoteCall → ApiOutcome`
  fixing the outcome of each possible remote call (`ok`, or one of the
  raised exception families: `gone` / `noContent` / `notFound` for the
  three distinguished Crossref conditions, `err` for a generic
  `CrossrefError` / `HttpError`);
* each adapter operation as a function producing the Python return
  value or raised exception (`Except ApiOutcome Bool`), the final
  local record, and the ordered trace of remote calls issued.
-/

/-- Status enum of the local persistent-identifier record
(the four states the spec's data model names). -/
inductive PIDStatus where
  | new
  | reserved
  | registered
  | deleted
deriving DecidableEq, Repr

/-- The local persistent-identifier record: a value and a status. -/
structure PID where
  pid_value : String
  status : PIDStatus
deriving DecidableEq, Repr

/-- Modelled from the spec: `PersistentIdentifier.register()`
(`models.py`, not under `src/`) — "register-locally()": mark the
identifier as registered locally. -/
def PID.register (pid : PID) : PID :=
  { pid with status := .registered }

/-- Modelled from the spec: `PersistentIdentifier.delete()`
(`models.py`, not under `src/`) — "delete-locally()": mark the
identifier as deleted locally. -/
def PID.delete (pid : PID) : PID :=
  { pid with status := .deleted }

/-- Modelled from the spec: `PersistentIdentifier.is_new()`
(`models.py`, not under `src/`). -/
def PID.is_new (pid : PID) : Bool :=
  pid.status = .new

/-- Modelled from the spec: `PersistentIdentifier.is_deleted()`
(`models.py`, not under `src/`). -/
def PID.is_deleted (pid : PID) : Bool :=
  pid.status = .deleted

/-- Modelled from the spec: `PersistentIdentifier.sync_status(status)`
(`models.py`, not under `src/`) — the "single synchronization mutator"
writing the inferred status to the local record. -/
def PID.sync_status (pid : PID) (status : PIDStatus) : PID :=
  { pid with status := status }

/-- One remote call of the `CrossrefXMLClient`, with its arguments. -/
inductive RemoteCall where
  | metadata_post (doc : String)
  | doi_post (pid_value url : String)
  | doi_get (pid_value : String)
  | metadata_get (pid_value : String)
  | metadata_delete (pid_value : String)
deriving DecidableEq, Repr

/-- Outcome of one remote call: success, or the exception family it
raises.  `gone`, `noContent`, `notFound` are the three distinguished
conditions (`CrossrefGoneError`, `CrossrefNoContentError`,
`CrossrefNotFoundError`, all subclasses of `CrossrefError`); `err` is
any other `CrossrefError` or `HttpError`. -/
inductive ApiOutcome where
  | ok
  | gone
  | noContent
  | notFound
  | err
deriving DecidableEq, Repr

/-- The remote client's behaviour: the outcome of each remote call. -/
def Api : Type := RemoteCall → ApiOutcome

/-- Result of one adapter operation: the Python-level result (`.ok b`
for `return b`, `.error e` for a raised exception of family `e`), the
final local record, and the ordered list of remote calls issued. -/
structure OpResult where
  result : Except ApiOutcome Bool
  pid : PID
  calls : List RemoteCall
deriving Repr

/-- `CrossrefProvider.register(url, doc)`: inside one `try`, first
`self.pid.register()` (the local transition), then
`api.metadata_post(doc)`, then `api.doi_post(pid_value, url)`; any
`CrossrefError`/`HttpError` is logged and re-raised; on success returns
`True`. -/
def CrossrefProvider.register (api : Api) (pid : PID) (url doc : String) :
    OpResult :=
  let pid1 := pid.register
  match api (.metadata_post doc) with
  | .ok =>
    match api (.doi_post pid1.pid_value url) with
    | .ok =>
      { result := .ok true, pid := pid1,
        calls := [.metadata_post doc, .doi_post pid1.pid_value url] }
    | e =>
      { result := .error e, pid := pid1,
        calls := [.metadata_post doc, .doi_post pid1.pid_value url] }
  | e =>
    { result := .error e, pid := pid1, calls := [.metadata_post doc] }

/-- `CrossrefProvider.update(url, doc)`: `api.metadata_post(doc)` then
`api.doi_post(pid_value, url)` inside a `try` that logs and re-raises
any `CrossrefError`/`HttpError`; afterwards, if `self.pid.is_deleted()`
then `self.pid.sync_status(PIDStatus.REGISTERED)`; returns `True`. -/
def CrossrefProvider.update (api : Api) (pid : PID) (url doc : String) :
    OpResult :=
  match api (.metadata_post doc) with
  | .ok =>
    match api (.doi_post pid.pid_value url) with
    | .ok =>
      let pid1 := if pid.is_deleted then pid.sync_status .registered else pid
      { result := .ok true, pid := pid1,
        calls := [.metadata_post doc, .doi_post pid.pid_value url] }
    | e =>
      { result := .error e, pid := pid,
        calls := [.metadata_post doc, .doi_post pid.pid_value url] }
  | e =>
    { result := .error e, pid := pid, calls := [.metadata_post doc] }

/-- `CrossrefProvider.delete()`: if `self.pid.is_new()` then only
`self.pid.delete()`; otherwise `self.pid.delete()` followed by
`api.metadata_delete(pid_value)`; errors are logged and re-raised;
returns `True` on success. -/
def CrossrefProvider.delete (api : Api) (pid : PID) : OpResult :=
  if pid.is_new then
    { result := .ok true, pid := pid.delete, calls := [] }
  else
    let pid1 := pid.delete
    match api (.metadata_delete pid.pid_value) with
    | .ok =>
      { result := .ok true, pid := pid1,
        calls := [.metadata_delete pid.pid_value] }
    | e =>
      { result := .error e, pid := pid1,
        calls := [.metadata_delete pid.pid_value] }

/-- `CrossrefProvider.sync_status()`: probe `api.doi_get(pid_value)`;
success / `CrossrefNoContentError` give REGISTERED,
`CrossrefGoneError` gives DELETED, `CrossrefNotFoundError` falls
through to a second probe `api.metadata_get(pid_value)` (success gives
RESERVED, gone DELETED, no-content REGISTERED, not-found falls
through); if neither probe concluded, the status defaults to NEW; any
other `CrossrefError`/`HttpError` from either probe is logged and
re-raised with no local write; otherwise `self.pid.sync_status(status)`
is called and `True` returned. -/
def CrossrefProvider.sync_status (api : Api) (pid : PID) : OpResult :=
  match api (.doi_get pid.pid_value) with
  | .ok =>
    { result := .ok true, pid := pid.sync_status .registered,
      calls := [.doi_get pid.pid_value] }
  | .gone =>
    { result := .ok true, pid := pid.sync_status .deleted,
      calls := [.doi_get pid.pid_value] }
  | .noContent =>
    { result := .ok true, pid := pid.sync_status .registered,
      calls := [.doi_get pid.pid_value] }
  | .err =>
    { result := .error .err, pid := pid, calls := [.doi_get pid.pid_value] }
  | .notFound =>
    match api (.metadata_get pid.pid_value) with
    | .ok =>
      { result := .ok true, pid := pid.sync_status .reserved,
        calls := [.doi_get pid.pid_value, .metadata_get pid.pid_value] }
    | .gone =>
      { result := .ok true, pid := pid.sync_status .deleted,
        calls := [.doi_get pid.pid_value, .metadata_get pid.pid_value] }
    | .noContent =>
      { result := .ok true, pid := pid.sync_status .registered,
        calls := [.doi_get pid.pid_value, .metadata_get pid.pid_value] }
    | .notFound =>
      { result := .ok true, pid := pid.sync_status .new,
        calls := [.doi_get pid.pid_value, .metadata_get pid.pid_value] }
    | .err =>
      { result := .error .err, pid := pid,
        calls := [.doi_get pid.pid_value, .metadata_get pid.pid_value] }

/-- `CrossrefProvider.default_status = PIDStatus.NEW`. -/
def CrossrefProvider.default_status : PIDStatus := .new

/-- Modelled from the spec: `BaseProvider.create` (`providers/base.py`,
not under `src/`) creates a persistent identifier with the supplied
status, or the provider's `default_status` when none is supplied. -/
def BaseProvider.create (default_status : PIDStatus) (pid_value : String)
    (status : Option PIDStatus) : PID :=
  { pid_value := pid_value, status := status.getD default_status }

/-- `CrossrefProvider.create(pid_value, **kwargs)`: delegates to
`BaseProvider.create` with this provider's `default_status`. -/
def CrossrefProvider.create (pid_value : String) (status : Option PIDStatus) :
    PID :=
  BaseProvider.create CrossrefProvider.default_status pid_value status

/-- The process-wide Flask configuration keys the constructor reads:
`current_app.config.get(key)` yields `none` when the key is absent. -/
structure Config where
  username : Option String
  password : Option String
  doi_prefixes : Option (List String)
  testmode : Option Bool
  url : Option String
deriving DecidableEq, Repr

/-- The keyword arguments passed to `CrossrefXMLClient(...)`.  `url` is
`Option` because the constructor call may omit it. -/
structure ClientArgs where
  username : Option String
  password : Option String
  prefixes : List String
  test_mode : Bool
  url : Option String
deriving DecidableEq, Repr

/-- The default-client construction in `CrossrefProvider.__init__` when
no client is supplied: `CrossrefXMLClient` is built with
`username`, `password`, `prefixes` (default `["10.5555"]`) and
`test_mode` (default `False`).  The source call passes no `url`
argument, although the docstring lists `PIDSTORE_CROSSREF_URL`. -/
def CrossrefProvider.defaultClientArgs (cfg : Config) : ClientArgs :=
  { username := cfg.username
    password := cfg.password
    prefixes := cfg.doi_prefixes.getD ["10.5555"]
    test_mode := cfg.testmode.getD false
    url := none }

/-- Following the spec's words, for comparison with the source: the
default client is built "from process-wide configuration (credentials,
prefix list defaulting to a single sentinel prefix, a test-mode boolean
defaulting to false, and a service URL)". -/
def specDefaultClientArgs (cfg : Config) : ClientArgs :=
  { username := cfg.username
    password := cfg.password
    prefixes := cfg.doi_prefixes.getD ["10.5555"]
    test_mode := cfg.testmode.getD false
    url := cfg.url }

/-- Following the spec's words, for comparison with `sync_status`: the
status table inferred from the two probe outcomes (the `err` rows are
outside the table and arbitrary). -/
def specStatusTable (o1 o2 : ApiOutcome) : PIDStatus :=
  match o1 with
  | .ok => .registered
  | .gone => .deleted
  | .noContent => .registered
  | .err => .new
  | .notFound =>
    match o2 with
    | .ok => .reserved
    | .gone => .deleted
    | .noContent => .registered
    | .notFound => .new
    | .err => .new

/-- A remote client whose identifier-probe yields `o1`, whose
metadata-probe yields `o2`, and whose other calls succeed. -/
def probeApi (o1 o2 : ApiOutcome) : Api := fun c =>
  match c with
  | .doi_get _ => o1
  | .metadata_get _ => o2
  | _ => .ok

/-- C1: for every pair of probe outcomes (among the four conditions the
table covers), `sync_status` writes exactly the status of the inference
table, and the final status is NEW iff both probes raise "not found". -/
theorem sync_status_inference_table (pid : PID) (o1 o2 : ApiOutcome)
    (h1 : o1 ≠ .err) (h2 : o2 ≠ .err) :
    (CrossrefProvider.sync_status (probeApi o1 o2) pid).pid.status =
      specStatusTable o1 o2 ∧
    ((CrossrefProvider.sync_status (probeApi o1 o2) pid).pid.status = .new ↔
      (o1 = .notFound ∧ o2 = .notFound)) := by
  cases o1 <;> cases o2 <;>
    simp_all [CrossrefProvider.sync_status, probeApi, specStatusTable,
      PID.sync_status]

/-- Witness for C1 at concrete probe outcomes. -/
theorem sync_status_inference_table_witness :
    (CrossrefProvider.sync_status
        (probeApi .notFound .noContent) ⟨"10.5555/x", .new⟩).pid.status =
      specStatusTable .notFound .noContent ∧
    ((CrossrefProvider.sync_status
        (probeApi .notFound .noContent) ⟨"10.5555/x", .new⟩).pid.status = .new ↔
      (ApiOutcome.notFound = .notFound ∧ ApiOutcome.noContent = .notFound)) :=
  sync_status_inference_table ⟨"10.5555/x", .new⟩ .notFound .noContent
    (by decide) (by decide)

/-- C2 as stated is false: with a client whose metadata-post raises,
`register` has already transitioned the local record to REGISTERED
before any remote call was confirmed, and the failure leaves the
status mutated. -/
theorem register_mutates_before_remote :
    (CrossrefProvider.register (fun _ => .err) ⟨"10.5555/x", .new⟩
        "https://example.org" "doc").result = .error .err ∧
    (CrossrefProvider.register (fun _ => .err) ⟨"10.5555/x", .new⟩
        "https://example.org" "doc").pid.status = .registered ∧
    (⟨"10.5555/x", .new⟩ : PID).status ≠ .registered :=
  ⟨rfl, rfl, by decide⟩

/-- C2 amended: `update` and `sync_status` never mutate the local
record unless the remote calls succeed (or a state is inferred), but
`register` transitions the local status to REGISTERED before its
remote calls, and `delete` deletes locally before its remote call, so
on those two operations the mutation stands even when the remote call
fails. -/
theorem status_mutation_discipline (api : Api) (pid : PID)
    (url doc : String) (e : ApiOutcome) :
    ((CrossrefProvider.update api pid url doc).result = .error e →
      (CrossrefProvider.update api pid url doc).pid = pid) ∧
    ((CrossrefProvider.sync_status api pid).result = .error e →
      (CrossrefProvider.sync_status api pid).pid = pid) ∧
    (CrossrefProvider.register api pid url doc).pid.status = .registered ∧
    (CrossrefProvider.delete api pid).pid.status = .deleted := by
  refine ⟨?_, ?_, ?_, ?_⟩
  · unfold CrossrefProvider.update
    cases h1 : api (.metadata_post doc) <;>
      cases h2 : api (.doi_post pid.pid_value url) <;> simp_all
  · unfold CrossrefProvider.sync_status
    cases h1 : api (.doi_get pid.pid_value) <;>
      cases h2 : api (.metadata_get pid.pid_value) <;> simp_all
  · unfold CrossrefProvider.register
    cases h1 : api (.metadata_post doc) <;>
      cases h2 : api (.doi_post pid.register.pid_value url) <;>
      simp_all [PID.register]
  · unfold CrossrefProvider.delete
    by_cases h : pid.is_new <;>
      cases h1 : api (.metadata_delete pid.pid_value) <;>
      simp_all [PID.delete]

/-- Witness for the amended C2 at concrete inputs. -/
theorem status_mutation_discipline_witness :
    (CrossrefProvider.sync_status (fun _ => .err)
        ⟨"10.5555/x", .registered⟩).pid = ⟨"10.5555/x", .registered⟩ ∧
    (CrossrefProvider.update (fun _ => .err)
        ⟨"10.5555/x", .registered⟩ "https://example.org" "doc").pid =
      ⟨"10.5555/x", .registered⟩ :=
  ⟨(status_mutation_discipline (fun _ => .err) ⟨"10.5555/x", .registered⟩
      "https://example.org" "doc" .err).2.1 rfl,
   (status_mutation_discipline (fun _ => .err) ⟨"10.5555/x", .registered⟩
      "https://example.org" "doc" .err).1 rfl⟩

/-- C3: whenever the identifier-probe yields a conclusive result
(success, "gone", or "no content"), `sync_status` never issues the
metadata-probe. -/
theorem sync_status_probe_precedence (api : Api) (pid : PID)
    (h : api (.doi_get pid.pid_value) = .ok ∨
      api (.doi_get pid.pid_value) = .gone ∨
      api (.doi_get pid.pid_value) = .noContent) :
    ∀ v, RemoteCall.metadata_get v ∉
      (CrossrefProvider.sync_status api pid).calls := by
  intro v
  unfold CrossrefProvider.sync_status
  rcases h with h | h | h <;> simp [h]

/-- Witness for C3 at a concrete client and record. -/
theorem sync_status_probe_precedence_witness :
    RemoteCall.metadata_get "10.5555/x" ∉
      (CrossrefProvider.sync_status (probeApi .gone .ok)
        ⟨"10.5555/x", .registered⟩).calls :=
  sync_status_probe_precedence (probeApi .gone .ok)
    ⟨"10.5555/x", .registered⟩ (Or.inr (Or.inl rfl)) "10.5555/x"

/-- C4: on a record currently DELETED, `update` ends REGISTERED iff
both remote calls succeed; when it raises, the status is still DELETED
and the raised error is the outcome of one of the two remote calls. -/
theorem update_reactivation_iff (api : Api) (pid : PID) (url doc : String)
    (h : pid.status = .deleted) :
    ((CrossrefProvider.update api pid url doc).pid.status = .registered ↔
      (api (.metadata_post doc) = .ok ∧
        api (.doi_post pid.pid_value url) = .ok)) ∧
    (∀ e, (CrossrefProvider.update api pid url doc).result = .error e →
      (CrossrefProvider.update api pid url doc).pid.status = .deleted ∧
      (api (.metadata_post doc) = e ∨
        api (.doi_post pid.pid_value url) = e)) := by
  unfold CrossrefProvider.update
  cases h1 : api (.metadata_post doc) <;>
    cases h2 : api (.doi_post pid.pid_value url) <;>
    simp_all [PID.is_deleted, PID.sync_status]

/-- Witness for C4 at a concrete deleted record. -/
theorem update_reactivation_iff_witness :
    (CrossrefProvider.update (fun _ => .ok) ⟨"10.5555/x", .deleted⟩
        "https://example.org" "doc").pid.status = .registered :=
  ((update_reactivation_iff (fun _ => .ok) ⟨"10.5555/x", .deleted⟩
      "https://example.org" "doc" rfl).1).mpr ⟨rfl, rfl⟩

/-- C5: on a NEW record, `delete` issues no remote call and only
transitions local state; on any other record it issues exactly one
remote metadata-delete carrying the identifier's value. -/
theorem delete_remote_call_discipline (api : Api) (pid : PID) :
    (pid.status = .new →
      (CrossrefProvider.delete api pid).calls = [] ∧
      (CrossrefProvider.delete api pid).pid = pid.delete ∧
      (CrossrefProvider.delete api pid).result = .ok true) ∧
    (pid.status ≠ .new →
      (CrossrefProvider.delete api pid).calls =
        [.metadata_delete pid.pid_value]) := by
  unfold CrossrefProvider.delete
  by_cases h : pid.status = .new <;>
    cases h1 : api (.metadata_delete pid.pid_value) <;>
    simp_all [PID.is_new]

/-- Witness for C5 in both branches, at concrete records. -/
theorem delete_remote_call_discipline_witness :
    (CrossrefProvider.delete (fun _ => .ok) ⟨"10.5555/x", .new⟩).calls =
      [] ∧
    (CrossrefProvider.delete (fun _ => .ok)
        ⟨"10.5555/x", .registered⟩).calls =
      [.metadata_delete "10.5555/x"] :=
  ⟨((delete_remote_call_discipline (fun _ => .ok)
      ⟨"10.5555/x", .new⟩).1 rfl).1,
   (delete_remote_call_discipline (fun _ => .ok)
      ⟨"10.5555/x", .registered⟩).2 (by decide)⟩

/-- C6: `register` issues metadata-post first; when metadata-post
fails, the raised error is re-raised and the identifier-mint call is
never attempted. -/
theorem register_metadata_before_mint (api : Api) (pid : PID)
    (url doc : String) :
    (CrossrefProvider.register api pid url doc).calls.head? =
      some (.metadata_post doc) ∧
    (∀ e, api (.metadata_post doc) = e → e ≠ .ok →
      (CrossrefProvider.register api pid url doc).result = .error e ∧
      ∀ v u, RemoteCall.doi_post v u ∉
        (CrossrefProvider.register api pid url doc).calls) := by
  unfold CrossrefProvider.register
  cases h1 : api (.metadata_post doc) <;>
    cases h2 : api (.doi_post pid.register.pid_value url) <;>
    simp_all

/-- Witness for C6 with a failing metadata-post. -/
theorem register_metadata_before_mint_witness :
    (CrossrefProvider.register (fun _ => .err) ⟨"10.5555/x", .new⟩
        "https://example.org" "doc").result = .error .err ∧
    RemoteCall.doi_post "10.5555/x" "https://example.org" ∉
      (CrossrefProvider.register (fun _ => .err) ⟨"10.5555/x", .new⟩
        "https://example.org" "doc").calls :=
  ⟨((register_metadata_before_mint (fun _ => .err) ⟨"10.5555/x", .new⟩
      "https://example.org" "doc").2 .err rfl (by decide)).1,
   ((register_metadata_before_mint (fun _ => .err) ⟨"10.5555/x", .new⟩
      "https://example.org" "doc").2 .err rfl (by decide)).2
     "10.5555/x" "https://example.org"⟩

/-- C7: a generic remote error (`err`) during either probe makes
`sync_status` re-raise it and leave the local record untouched: the
synchronization mutator is not reached. -/
theorem sync_status_generic_error_aborts (api : Api) (pid : PID)
    (h : api (.doi_get pid.pid_value) = .err ∨
      (api (.doi_get pid.pid_value) = .notFound ∧
        api (.metadata_get pid.pid_value) = .err)) :
    (CrossrefProvider.sync_status api pid).result = .error .err ∧
    (CrossrefProvider.sync_status api pid).pid = pid := by
  unfold CrossrefProvider.sync_status
  rcases h with h | ⟨h1, h2⟩
  · simp [h]
  · simp [h1, h2]

/-- Witness for C7: generic error on the metadata-probe. -/
theorem sync_status_generic_error_aborts_witness :
    (CrossrefProvider.sync_status (probeApi .notFound .err)
        ⟨"10.5555/x", .registered⟩).result = .error .err ∧
    (CrossrefProvider.sync_status (probeApi .notFound .err)
        ⟨"10.5555/x", .registered⟩).pid = ⟨"10.5555/x", .registered⟩ :=
  sync_status_generic_error_aborts (probeApi .notFound .err)
    ⟨"10.5555/x", .registered⟩ (Or.inr ⟨rfl, rfl⟩)

/-- A configuration with every key set, including the service URL the
constructor's docstring names (`PIDSTORE_CROSSREF_URL`). -/
def cfgWithUrl : Config :=
  { username := some "user", password := some "pass",
    doi_prefixes := none, testmode := none,
    url := some "https://doi.crossref.org" }

/-- C8: the default-client construction passes the credentials, the
prefix list defaulting to `["10.5555"]` and the test-mode boolean
defaulting to `False`, but — against its own docstring and the spec —
no service URL: at `cfgWithUrl` the built arguments carry no URL and
differ from the spec's expected arguments. -/
theorem default_client_ignores_url :
    CrossrefProvider.defaultClientArgs cfgWithUrl =
      { username := some "user", password := some "pass",
        prefixes := ["10.5555"], test_mode := false, url := none } ∧
    CrossrefProvider.defaultClientArgs cfgWithUrl ≠
      specDefaultClientArgs cfgWithUrl :=
  ⟨rfl, by decide⟩

/-- C9: on a record that is not NEW, `delete` deletes locally before
the remote metadata-delete, so when the remote call fails the error
propagates with the record already deleted locally. -/
theorem delete_local_deletion_precedes_remote (api : Api) (pid : PID)
    (h : pid.status ≠ .new) (e : ApiOutcome)
    (h1 : api (.metadata_delete pid.pid_value) = e) (h2 : e ≠ .ok) :
    (CrossrefProvider.delete api pid).result = .error e ∧
    (CrossrefProvider.delete api pid).pid.status = .deleted := by
  unfold CrossrefProvider.delete
  cases e <;> simp_all [PID.is_new, PID.delete]

/-- Witness for C9 with a failing remote metadata-delete. -/
theorem delete_local_deletion_precedes_remote_witness :
    (CrossrefProvider.delete (fun _ => .err)
        ⟨"10.5555/x", .registered⟩).result = .error .err ∧
    (CrossrefProvider.delete (fun _ => .err)
        ⟨"10.5555/x", .registered⟩).pid.status = .deleted :=
  delete_local_deletion_precedes_remote (fun _ => .err)
    ⟨"10.5555/x", .registered⟩ (by decide) .err rfl (by decide)

/-- C10: a persistent identifier created through the provider with no
explicit status starts in the provider's default status, NEW. -/
theorem create_default_status_new (v : String) :
    (CrossrefProvider.create v none).status = .new :=
  rfl

/-- Witness for C10 at a concrete identifier value. -/
theorem create_default_status_new_witness :
    (CrossrefProvider.create "10.5555/x" none).status = .new :=
  create_default_status_new "10.5555/x"
